import Mathlib

/-!
Verification model of `src/gripper.py` (GrowbotHub/gripper).

The driver talks to a gripper over Modbus: it writes command frames to
register 0x0801, reads the status word from input register 0x0001, reads the
position floats from input registers 0x0003-0x0004 and configures the link
timeout at register 0x1120.  We embed every method as a pure function that
receives the sequence of status-register values the device would return (an
`Oracle`) and produces the list of I/O events the method performs, the next
read index, and an outcome.  Python's IEEE-754 binary64/binary32 arithmetic
in the position codec is modelled exactly with dyadic rationals (an integer
mantissa times a power of two) and round-to-nearest, ties-to-even.
-/

namespace Gripper

/-- Bounded-fuel binary logarithm: `log2fuel f n` is `⌊log₂ n⌋` for `n > 0`
whenever `f ≥ ⌊log₂ n⌋`; structural recursion on the fuel so the kernel can
evaluate it. -/
def log2fuel : ℕ → ℕ → ℕ
  | 0, _ => 0
  | f + 1, n => if 2 ≤ n then log2fuel f (n / 2) + 1 else 0

/-- `⌊log₂ n⌋` for `n > 0` (and `0` for `n = 0`); all numbers in this model
are far below `2 ^ 1024`. -/
def mylog2 (n : ℕ) : ℕ := log2fuel 1024 n

/-- Length of Python's `bin(v)[2:].zfill(16)`: 16 characters for `v < 2^16`,
the plain binary length of `v` otherwise (`zfill` never truncates). -/
def pyBinLen (v : ℕ) : ℕ := max 16 (mylog2 v + 1)

/-- `get_status` decoding (gripper.py line 246): character slice `[5:8]` of
the MSB-first binary string `bin(value)[2:].zfill(16)`, read as a 3-bit
number.  For `v < 2^16` this is `(v >> 8) % 8`. -/
def statusField (v : ℕ) : ℕ := v / 2 ^ (pyBinLen v - 8) % 8

/-- `success` decoding (gripper.py line 262): character `[1]` of the same
MSB-first binary string.  For `v < 2^16` this is bit 14. -/
def successBit (v : ℕ) : ℕ := v / 2 ^ (pyBinLen v - 2) % 2

/-- `process_command` decoding (gripper.py line 292): character `[0]` of the
MSB-first binary string. -/
def processBit (v : ℕ) : ℕ := v / 2 ^ (pyBinLen v - 1) % 2

/-- Operating-status constants from `Gripper.__init__` (lines 19-22). -/
def STATUS_ERROR : ℕ := 0

def STATUS_OOS : ℕ := 1

def STATUS_MAINTENANCE : ℕ := 2

def STATUS_READY : ℕ := 3

/-! ## Exact model of Python float arithmetic (binary64 / binary32)

A `Dy` is a dyadic rational `m * 2 ^ e`.  Every float is dyadic, and
addition, subtraction and multiplication of dyadics are exact before
rounding, so one rounding map per operation reproduces IEEE-754
round-to-nearest, ties-to-even arithmetic exactly (in the normal range used
by the code; no subnormal, infinite or NaN value arises on the modelled
paths except where noted). -/

/-- Dyadic rational `m * 2 ^ e`. -/
structure Dy where
  m : ℤ
  e : ℤ
deriving DecidableEq, Repr

/-- Decides `2 ^ d ≤ A / B` for `A, B > 0`. -/
def pow2le (A B : ℕ) (d : ℤ) : Bool :=
  if 0 ≤ d then B * 2 ^ d.toNat ≤ A else B ≤ A * 2 ^ (-d).toNat

/-- `⌊log₂ (A / B)⌋` for `A, B > 0`. -/
def qlog2 (A B : ℕ) : ℤ :=
  let d : ℤ := (mylog2 A : ℤ) - (mylog2 B : ℤ)
  if pow2le A B d then d else d - 1

/-- Floor, remainder and denominator of `(A / B) / 2 ^ g`. -/
def divparts (A B : ℕ) (g : ℤ) : ℕ × ℕ × ℕ :=
  if 0 ≤ g then
    let D := B * 2 ^ g.toNat
    (A / D, A % D, D)
  else
    let N := A * 2 ^ (-g).toNat
    (N / B, N % B, B)

/-- Round `A / B` (`A, B > 0`) to `p` significant bits, nearest, ties to
even: returns `(m, e)` with `2 ^ (p-1) ≤ m < 2 ^ p` and value `m * 2 ^ e`. -/
def roundRatio (p A B : ℕ) : ℕ × ℤ :=
  let g := qlog2 A B - ((p : ℤ) - 1)
  let fd := divparts A B g
  let f := fd.1
  let rem := fd.2.1
  let D := fd.2.2
  let m := if 2 * rem < D then f
           else if D < 2 * rem then f + 1
           else if f % 2 = 0 then f else f + 1
  if m = 2 ^ p then (2 ^ (p - 1), g + 1) else (m, g)

/-- Round a dyadic to `p` significant bits (nearest, ties to even). -/
def roundDy (p : ℕ) (d : Dy) : Dy :=
  if d.m = 0 then ⟨0, 0⟩
  else
    let r := roundRatio p d.m.natAbs 1
    ⟨if d.m < 0 then -(r.1 : ℤ) else (r.1 : ℤ), r.2 + d.e⟩

/-- Python binary64 multiplication. -/
def f64mul (a b : Dy) : Dy := roundDy 53 ⟨a.m * b.m, a.e + b.e⟩

/-- Python binary64 subtraction. -/
def f64sub (a b : Dy) : Dy :=
  let e := min a.e b.e
  roundDy 53 ⟨a.m * 2 ^ (a.e - e).toNat - b.m * 2 ^ (b.e - e).toNat, e⟩

/-- Python binary64 division (divisor nonzero on all modelled paths). -/
def f64div (a b : Dy) : Dy :=
  if a.m = 0 then ⟨0, 0⟩
  else
    let r := roundRatio 53 a.m.natAbs b.m.natAbs
    ⟨if (a.m < 0) = (b.m < 0) then (r.1 : ℤ) else -(r.1 : ℤ), r.2 + a.e - b.e⟩

/-- `POSITION_MAX = 40.683074951171875 = 1333103 * 2 ^ (-15)` mm
(gripper.py line 18); exactly representable in binary32 and binary64. -/
def POSITION_MAX : Dy := ⟨1333103, -15⟩

/-- `struct.pack('!f', x)` as a 32-bit big-endian pattern: round to binary32
and encode (normal range or zero; the modelled inputs never reach the
subnormal or overflow range). -/
def pack32 (d : Dy) : ℕ :=
  let r := roundDy 24 d
  if r.m = 0 then 0
  else
    let s := if r.m < 0 then 1 else 0
    s * 2 ^ 31 + (r.e + 150).toNat * 2 ^ 23 + (r.m.natAbs - 2 ^ 23)

/-- `struct.unpack('!f', ...)` of a 32-bit pattern; `none` on the non-finite
exponent 255 (infinities and NaNs are outside this model). -/
def unpack32 (w : ℕ) : Option Dy :=
  let E : ℕ := w / 2 ^ 23 % 2 ^ 8
  let f : ℕ := w % 2 ^ 23
  let s : ℕ := w / 2 ^ 31 % 2
  if E = 255 then none
  else
    let mag : Dy := if E = 0 then ⟨(f : ℤ), -149⟩ else ⟨((2 ^ 23 + f : ℕ) : ℤ), (E : ℤ) - 150⟩
    some (if s = 1 then ⟨-mag.m, mag.e⟩ else mag)

/-- Python `int(x)` on a float: truncation toward zero. -/
def dyTrunc (d : Dy) : ℤ :=
  if 0 ≤ d.e then d.m * 2 ^ d.e.toNat else d.m.tdiv (2 ^ (-d.e).toNat)

/-- `position_mm = ((100 - target_position) / 100.) * POSITION_MAX`
(gripper.py line 182): one binary64 division, one binary64 multiplication. -/
def position_mm (tp : ℤ) : Dy := f64mul (f64div ⟨100 - tp, 0⟩ ⟨100, 0⟩) POSITION_MAX

/-- The two 16-bit big-endian words of the IEEE-754 binary32 encoding of
`position_mm` (gripper.py lines 184-186). -/
def position_words (tp : ℤ) : ℕ × ℕ :=
  let b := pack32 (position_mm tp)
  (b / 2 ^ 16, b % 2 ^ 16)

/-- `get_position` (gripper.py lines 275-279): concatenate the zfilled
binary strings of the two registers, reinterpret as binary32, and return
`int(((POSITION_MAX - mm) / POSITION_MAX) * 100)` (binary64 arithmetic,
truncated toward zero).  `none` when `struct.pack('!I')` would reject the
concatenation (≥ 2^32) or the float is non-finite. -/
def get_position (r0 r1 : ℕ) : Option ℤ :=
  let bits := r0 * 2 ^ pyBinLen r1 + r1
  if bits < 2 ^ 32 then
    (unpack32 bits).map fun mm =>
      dyTrunc (f64mul (f64div (f64sub POSITION_MAX mm) POSITION_MAX) ⟨100, 0⟩)
  else none

/-! ## Trace model of the stateful methods

An `Oracle` gives the successive values returned by reads of the status
register 0x0001; each method is a function of the oracle and the index of
the next read, returning the list of I/O events performed, the next read
index, and an outcome.  Sleeps are recorded in milliseconds. -/

/-- Successive status-register (0x0001) read values returned by the device. -/
def Oracle : Type := ℕ → ℕ

/-- One I/O action of the driver. -/
inductive Event where
  | writeReg (addr val : ℕ)
  | writeRegs (addr : ℕ) (vals : List ℕ)
  | readInput (addr : ℕ) (vals : List ℕ)
  | sleep (ms : ℕ)
deriving DecidableEq, Repr

/-- Errors raised by the modelled methods.  `nameError nm` models Python's
`NameError` for the undefined name `nm` (raised while evaluating the
argument of `.format`), before any `Exception` with a descriptive message
could be constructed. -/
inductive Err where
  | rangeError
  | nameError (nm : String)
deriving DecidableEq, Repr

/-- How a method call ended: normal return, a raised error, or fuel
exhaustion of the unbounded `while self.success() != 1` loop. -/
inductive Outcome where
  | ok
  | err (e : Err)
  | diverge
deriving DecidableEq, Repr

/-- `acknowledge` (gripper.py lines 45-56): arm/execute pair 0x0100/0x8100
to the command register 0x0801 with a 100 ms settle in between. -/
def acknowledge : List Event :=
  [.writeReg 0x0801 0x0100, .sleep 100, .writeReg 0x0801 0x8100]

/-- `timeout value` (gripper.py lines 33-43): one write to register 0x1120. -/
def timeoutReg (value : ℕ) : List Event := [.writeReg 0x1120 value]

/-- `handle_errors` (gripper.py lines 301-321): read a fresh status via
`get_status`; on `Error` acknowledge then settle; on `Out of specification`
toggle the link timeout (1 then 0, settling after each) and acknowledge;
otherwise do nothing further. -/
def handle_errors (r : Oracle) (k : ℕ) : List Event × ℕ :=
  let v := r k
  let s := statusField v
  let tr : List Event :=
    if s = STATUS_ERROR then acknowledge ++ [.sleep 100]
    else if s = STATUS_OOS then
      timeoutReg 1 ++ [.sleep 100] ++ timeoutReg 0 ++ [.sleep 100] ++ acknowledge ++ [.sleep 100]
    else []
  (.readInput 0x0001 [v] :: tr, k + 1)

/-- The bounded polling loop inside `wait_process_command` (lines 290-294):
up to `n` reads of the status register, stopping as soon as a value exceeds
`2 ^ 15 - 1`; the Bool records whether that happened. -/
def waitLoop (r : Oracle) (k : ℕ) : ℕ → List Event × ℕ × Bool
  | 0 => ([], k, false)
  | n + 1 =>
    let v := r k
    if 2 ^ 15 - 1 < v then ([.readInput 0x0001 [v]], k + 1, true)
    else
      let rest := waitLoop r (k + 1) n
      (.readInput 0x0001 [v] :: rest.1, rest.2)

/-- `wait_process_command` (gripper.py lines 281-299): poll up to 1000
times; on failure of all 1000 reads, toggle the link timeout (1, settle, 0,
settle) and acknowledge. -/
def wait_process_command (r : Oracle) (k : ℕ) : List Event × ℕ :=
  let w := waitLoop r k 1000
  if w.2.2 then (w.1, w.2.1)
  else
    (w.1 ++ timeoutReg 1 ++ [.sleep 100] ++ timeoutReg 0 ++ [.sleep 100] ++ acknowledge, w.2.1)

/-- The `while self.success() != 1` loop (gripper.py lines 130-131 and
152-153) with fuel: read the status register; stop when character `[1]`
reads 1, else sleep 50 ms and retry.  The Bool records whether the success
bit was seen before the fuel ran out. -/
def successLoop (r : Oracle) (k : ℕ) : ℕ → List Event × ℕ × Bool
  | 0 => ([], k, false)
  | n + 1 =>
    let v := r k
    if successBit v = 1 then ([.readInput 0x0001 [v]], k + 1, true)
    else
      let rest := successLoop r (k + 1) n
      (.readInput 0x0001 [v] :: .sleep 50 :: rest.1, rest.2)

/-- Body of `grip` after `handle_errors` (gripper.py lines 120-131): range
check, arm/execute pair `[0x0400, (4-force)*0x0100, 0, 0]` /
`[0x8400, (4-force)*0x0100, 0, 0]`, acceptance polling, 1 s sleep, then the
unbounded success loop. -/
def gripBody (r : Oracle) (k : ℕ) (force : ℤ) (fuel : ℕ) : List Event × ℕ × Outcome :=
  if 1 ≤ force ∧ force ≤ 4 then
    let w := ((4 - force) * 0x0100).toNat
    let wp := wait_process_command r k
    let sl := successLoop r wp.2 fuel
    ([.writeRegs 0x0801 [0x0400, w, 0, 0], .sleep 50, .writeRegs 0x0801 [0x8400, w, 0, 0]]
       ++ wp.1 ++ [.sleep 1000] ++ sl.1,
     sl.2.1, if sl.2.2 then .ok else .diverge)
  else ([], k, .err .rangeError)

/-- `grip` with an `int` force (gripper.py lines 104-131): `handle_errors`
first (a status read, before the range check), then `gripBody`. -/
def grip (r : Oracle) (k : ℕ) (force : ℤ) (fuel : ℕ) : List Event × ℕ × Outcome :=
  let he := handle_errors r k
  let b := gripBody r he.2 force fuel
  (he.1 ++ b.1, b.2)

/-- `release` (gripper.py lines 133-153): `handle_errors`, arm/execute pair
`[0x0300,0,0,0]` / `[0x8300,0,0,0]`, acceptance polling, 1 s sleep, success
loop. -/
def release (r : Oracle) (k : ℕ) (fuel : ℕ) : List Event × ℕ × Outcome :=
  let he := handle_errors r k
  let wp := wait_process_command r he.2
  let sl := successLoop r wp.2 fuel
  (he.1 ++ ([.writeRegs 0x0801 [0x0300, 0, 0, 0], .sleep 50, .writeRegs 0x0801 [0x8300, 0, 0, 0]]
     ++ wp.1 ++ [.sleep 1000] ++ sl.1),
   sl.2.1, if sl.2.2 then .ok else .diverge)

/-- Body of `set_position` after `handle_errors` (gripper.py lines
173-189): range check, delegation to `grip()` (default force 4) below 3 and
to `release()` above 97, else the move arm/execute pair 0x0500/0x8500 with
the split float position followed only by acceptance polling. -/
def set_positionBody (r : Oracle) (k : ℕ) (tp : ℤ) (fuel : ℕ) : List Event × ℕ × Outcome :=
  if 0 ≤ tp ∧ tp ≤ 100 then
    if tp < 3 then grip r k 4 fuel
    else if 97 < tp then release r k fuel
    else
      let hl := position_words tp
      let wp := wait_process_command r k
      ([.writeRegs 0x0801 [0x0500, 0, hl.1, hl.2], .sleep 50,
        .writeRegs 0x0801 [0x8500, 0, hl.1, hl.2]] ++ wp.1, wp.2, .ok)
  else ([], k, .err .rangeError)

/-- `set_position` with an `int` target (gripper.py lines 155-189):
`handle_errors` first (a status read, before the range check), then
`set_positionBody`. -/
def set_position (r : Oracle) (k : ℕ) (tp : ℤ) (fuel : ℕ) : List Event × ℕ × Outcome :=
  let he := handle_errors r k
  let b := set_positionBody r he.2 tp fuel
  (he.1 ++ b.1, b.2)

/-- `stop` (gripper.py lines 208-220). -/
def stop (r : Oracle) (k : ℕ) : List Event × ℕ :=
  let he := handle_errors r k
  (he.1 ++ [.writeReg 0x0801 0x0800, .sleep 100, .writeReg 0x0801 0x8800], he.2)

/-- `reference` (gripper.py lines 58-70). -/
def reference (r : Oracle) (k : ℕ) : List Event × ℕ :=
  let he := handle_errors r k
  (he.1 ++ [.writeReg 0x0801 0x0200, .sleep 100, .writeReg 0x0801 0x8200], he.2)

/-- `measure_stroke` (gripper.py lines 72-86). -/
def measure_stroke (r : Oracle) (k : ℕ) : List Event × ℕ :=
  let he := handle_errors r k
  (he.1 ++ [.writeReg 0x0801 0x0700, .sleep 100, .writeReg 0x0801 0x8700], he.2)

/-- `calibrate` (gripper.py lines 88-102). -/
def calibrate (r : Oracle) (k : ℕ) : List Event × ℕ :=
  let he := handle_errors r k
  (he.1 ++ [.writeReg 0x0801 0x0900, .sleep 100, .writeReg 0x0801 0x8900], he.2)

/-! ## Dynamic typing of the argument checks

`grip` (lines 115-116) and `__init__` (lines 15-16) check the Python type
of their argument; the failing branch formats its message with the name
`target_position`, which is not bound in either scope (and not a module
global), so evaluating the `.format` argument raises
`NameError('target_position')` before the descriptive `Exception` message
is built. -/

/-- A Python value as passed to the argument checks. -/
inductive PyVal where
  | int (n : ℤ)
  | str (s : String)
  | float (d : Dy)
  | noneVal
deriving DecidableEq, Repr

/-- `grip` as called with an arbitrary Python value for `force` (lines
115-116 then 118-131): a non-`int` hits the failing type-check branch,
whose message construction dereferences the undefined `target_position`. -/
def gripPy (r : Oracle) (k : ℕ) (force : PyVal) (fuel : ℕ) : List Event × ℕ × Outcome :=
  match force with
  | .int n => grip r k n fuel
  | _ => ([], k, .err (.nameError "target_position"))

/-- The `ip_adress` type check of `__init__` (gripper.py lines 15-16):
`none` when the check passes, otherwise the raised error. -/
def initIpCheck (ip : PyVal) : Option Err :=
  match ip with
  | .str _ => none
  | _ => some (.nameError "target_position")

/-- Boolean form of the position round trip: encode a percentage, decode
it, and compare with the original within ±1. -/
def roundTripOK (p : ℕ) : Bool :=
  match get_position (position_words (p : ℤ)).1 (position_words (p : ℤ)).2 with
  | some d => (d - (p : ℤ)).natAbs ≤ 1
  | none => false

/-- A device that reports status `Ready`, then command acceptance, then the
success bit. -/
def readyOracle : Oracle := fun i => [0x0300, 0x8000, 0x4000].getD i 0

/-- A device that reports status `Maintenance required`, then command
acceptance, then the success bit. -/
def maintOracle : Oracle := fun i => [0x0200, 0x8000, 0x4000].getD i 0

/-! ## Helper lemmas about the polling loops -/

lemma successLoop_found (r : Oracle) :
    ∀ n k, (successLoop r k n).2.2 = true →
      ∃ t v, (successLoop r k n).1 = t ++ [Event.readInput 0x0001 [v]] ∧ successBit v = 1 := by
  intro n
  induction n with
  | zero => intro k h; simp [successLoop] at h
  | succ n ih =>
    intro k h
    by_cases hb : successBit (r k) = 1
    · exact ⟨[], r k, by simp [successLoop, hb], hb⟩
    · simp only [successLoop, if_neg hb] at h ⊢
      obtain ⟨t, v, ht, hv⟩ := ih (k + 1) h
      exact ⟨.readInput 0x0001 [r k] :: .sleep 50 :: t, v, by simp [ht], hv⟩

lemma readRange (r : Oracle) (k n : ℕ) :
    (List.range (n + 1)).map (fun i => Event.readInput 0x0001 [r (k + i)]) =
      Event.readInput 0x0001 [r k] ::
        (List.range n).map (fun i => Event.readInput 0x0001 [r (k + 1 + i)]) := by
  rw [List.range_succ_eq_map, List.map_cons, List.map_map]
  simp [Function.comp_def, Nat.add_assoc, Nat.add_comm 1, Nat.succ_eq_add_one]

lemma waitLoop_all_low (r : Oracle) :
    ∀ n k, (∀ i, i < n → r (k + i) ≤ 0x7FFF) →
      waitLoop r k n =
        ((List.range n).map (fun i => Event.readInput 0x0001 [r (k + i)]), k + n, false) := by
  intro n
  induction n with
  | zero => intro k _; simp [waitLoop]
  | succ n ih =>
    intro k h
    have h0 : ¬ 2 ^ 15 - 1 < r k := by
      have := h 0 (Nat.succ_pos n)
      simp only [Nat.add_zero] at this
      omega
    have hrest := ih (k + 1) (fun i hi => by
      have := h (i + 1) (by omega)
      simpa [Nat.add_assoc, Nat.add_comm 1 i] using this)
    simp only [waitLoop, if_neg h0, hrest, Prod.mk.injEq]
    refine ⟨?_, by omega, trivial⟩
    rw [readRange r k n]

lemma waitLoop_found (r : Oracle) :
    ∀ n m k, m < n → (∀ i, i < m → r (k + i) ≤ 0x7FFF) → 0x7FFF < r (k + m) →
      waitLoop r k n =
        ((List.range (m + 1)).map (fun i => Event.readInput 0x0001 [r (k + i)]),
         k + m + 1, true) := by
  intro n
  induction n with
  | zero => intro m k hm; omega
  | succ n ih =>
    intro m k hm hlow hfound
    cases m with
    | zero =>
      have h0 : 2 ^ 15 - 1 < r k := by
        simp only [Nat.add_zero] at hfound
        omega
      simp only [waitLoop, if_pos h0]
      simp [List.range_succ]
    | succ m =>
      have h0 : ¬ 2 ^ 15 - 1 < r k := by
        have := hlow 0 (Nat.succ_pos m)
        simp only [Nat.add_zero] at this
        omega
      have hrest := ih m (k + 1) (by omega)
        (fun i hi => by
          have := hlow (i + 1) (by omega)
          simpa [Nat.add_assoc, Nat.add_comm 1 i] using this)
        (by simpa [Nat.add_assoc, Nat.add_comm 1 m] using hfound)
      simp only [waitLoop, if_neg h0, hrest, Prod.mk.injEq]
      refine ⟨?_, by omega, trivial⟩
      rw [readRange r k (m + 1)]

/-! ## Claim theorems -/

/-- C2 (counterexample): the claim says decoding the raw status word
0x0060 yields operating status `Ready` (= 3); in fact the character slice
`[5:8]` of its 16-character MSB-first binary string is `000`, so the
decoded operating status is not `Ready`. -/
theorem status_decode_0x0060_not_ready : ¬ statusField 0x0060 = STATUS_READY := by decide

/-- C2 (amended): decoding the raw status word 0x0060 yields operating
status `Error` (the 3-bit field at characters `[5:8]` of the 16-character
MSB-first binary string equals 0), processCommand = 0 (character `[0]`),
and success = 0 (character `[1]`). -/
theorem status_decode_0x0060 :
    statusField 0x0060 = STATUS_ERROR ∧ processBit 0x0060 = 0 ∧ successBit 0x0060 = 0 := by
  decide

/-- C9: a non-int `force` makes `grip` raise the error caused by the
undefined name `target_position` used in the message format call (with no
register I/O at all), and a non-string `ip_adress` makes the constructor's
type check raise the same undefined-name error, so the documented
descriptive type-error message is never produced for these inputs. -/
theorem type_check_undefined_name (r : Oracle) (k fuel : ℕ) (v w : PyVal)
    (hv : ∀ n, v ≠ PyVal.int n) (hw : ∀ s, w ≠ PyVal.str s) :
    gripPy r k v fuel = ([], k, Outcome.err (Err.nameError "target_position")) ∧
    initIpCheck w = some (Err.nameError "target_position") := by
  constructor
  · cases v with
    | int n => exact absurd rfl (hv n)
    | str s => rfl
    | float d => rfl
    | noneVal => rfl
  · cases w with
    | str s => exact absurd rfl (hw s)
    | int n => rfl
    | float d => rfl
    | noneVal => rfl

/-- C9 (witness): `grip` called with the string "4" and the constructor
called with the int 0 both fail with the undefined-name error. -/
theorem type_check_undefined_name_witness :
    gripPy readyOracle 0 (PyVal.str "4") 1 =
      ([], 0, Outcome.err (Err.nameError "target_position")) ∧
    initIpCheck (PyVal.int 0) = some (Err.nameError "target_position") :=
  type_check_undefined_name readyOracle 0 1 (PyVal.str "4") (PyVal.int 0)
    (fun _ h => PyVal.noConfusion h) (fun _ h => PyVal.noConfusion h)

/-- C10: `get_position` applies no clamping or range check: it returns the
truncated-toward-zero percentage for whatever position the device reports,
so the register pair encoding the float 50.0 mm (0x4248, 0x0000) decodes to
-22 percent and the pair encoding -42.0 mm (0xC228, 0x0000) decodes to 203
percent, both outside [0, 100]. -/
theorem get_position_unclamped :
    get_position 0x4248 0x0000 = some (-22) ∧
    get_position 0xC228 0x0000 = some 203 ∧
    ¬(0 ≤ (-22 : ℤ) ∧ (-22 : ℤ) ≤ 100) ∧
    ¬(0 ≤ (203 : ℤ) ∧ (203 : ℤ) ≤ 100) := by
  refine ⟨by decide, by decide, by decide, by decide⟩

/-- C3: `wait_process_command` returns as soon as a status-register read
yields a value greater than 0x7FFF, having performed exactly the reads up
to and including that one and nothing else; otherwise it performs exactly
1000 failed reads and then the link-level soft reset: write 1 to the
timeout register 0x1120, wait, write 0, wait, then the acknowledge
arm/execute pair 0x0100 / 0x8100 to 0x0801. -/
theorem wait_process_command_spec (r : Oracle) (k : ℕ) :
    ((∀ i, i < 1000 → r (k + i) ≤ 0x7FFF) →
       wait_process_command r k =
         ((List.range 1000).map (fun i => Event.readInput 0x0001 [r (k + i)]) ++
            [Event.writeReg 0x1120 1, Event.sleep 100, Event.writeReg 0x1120 0,
             Event.sleep 100, Event.writeReg 0x0801 0x0100, Event.sleep 100,
             Event.writeReg 0x0801 0x8100],
          k + 1000)) ∧
    (∀ m, m < 1000 → (∀ i, i < m → r (k + i) ≤ 0x7FFF) → 0x7FFF < r (k + m) →
       wait_process_command r k =
         ((List.range (m + 1)).map (fun i => Event.readInput 0x0001 [r (k + i)]),
          k + m + 1)) := by
  constructor
  · intro h
    have hw := waitLoop_all_low r 1000 k h
    simp [wait_process_command, hw, timeoutReg, acknowledge]
  · intro m hm hlow hfound
    have hw := waitLoop_found r 1000 m k hm hlow hfound
    simp [wait_process_command, hw]

/-- C3 (witness): with a device that never sets the top status bit the
sequencer performs 1000 reads then the soft reset; with a device whose
first read is 0x8000 it returns after that single read. -/
theorem wait_process_command_spec_witness :
    wait_process_command (fun _ => 0) 0 =
      ((List.range 1000).map (fun i => Event.readInput 0x0001 [(fun _ => 0) (0 + i)]) ++
         [Event.writeReg 0x1120 1, Event.sleep 100, Event.writeReg 0x1120 0,
          Event.sleep 100, Event.writeReg 0x0801 0x0100, Event.sleep 100,
          Event.writeReg 0x0801 0x8100],
       0 + 1000) ∧
    wait_process_command (fun _ => 0x8000) 0 =
      ((List.range (0 + 1)).map (fun i => Event.readInput 0x0001 [(fun _ => 0x8000) (0 + i)]),
       0 + 0 + 1) :=
  ⟨(wait_process_command_spec (fun _ => 0) 0).1 (fun i _ => Nat.zero_le _),
   (wait_process_command_spec (fun _ => 0x8000) 0).2 0 (by omega)
     (fun i hi => absurd hi (Nat.not_lt_zero i)) (by decide)⟩

/-- C5: the error-recovery check reads a fresh status and, on `Error`,
issues exactly the acknowledge arm/execute pair (0x0100 then 0x8100 to
0x0801); on `Out of specification`, the soft-reset sequence (timeout = 1,
settle, timeout = 0, settle, acknowledge pair); on `Ready`, no register
writes; and every command operation's trace begins with this check's
trace. -/
theorem handle_errors_policy (r : Oracle) (k : ℕ) :
    (statusField (r k) = STATUS_ERROR →
       handle_errors r k =
         ([Event.readInput 0x0001 [r k], Event.writeReg 0x0801 0x0100, Event.sleep 100,
           Event.writeReg 0x0801 0x8100, Event.sleep 100], k + 1)) ∧
    (statusField (r k) = STATUS_OOS →
       handle_errors r k =
         ([Event.readInput 0x0001 [r k], Event.writeReg 0x1120 1, Event.sleep 100,
           Event.writeReg 0x1120 0, Event.sleep 100, Event.writeReg 0x0801 0x0100,
           Event.sleep 100, Event.writeReg 0x0801 0x8100, Event.sleep 100], k + 1)) ∧
    (statusField (r k) = STATUS_READY →
       handle_errors r k = ([Event.readInput 0x0001 [r k]], k + 1)) ∧
    (∀ force fuel, ∃ t, (grip r k force fuel).1 = (handle_errors r k).1 ++ t) ∧
    (∀ fuel, ∃ t, (release r k fuel).1 = (handle_errors r k).1 ++ t) ∧
    (∀ tp fuel, ∃ t, (set_position r k tp fuel).1 = (handle_errors r k).1 ++ t) ∧
    (∃ t, (stop r k).1 = (handle_errors r k).1 ++ t) ∧
    (∃ t, (reference r k).1 = (handle_errors r k).1 ++ t) ∧
    (∃ t, (measure_stroke r k).1 = (handle_errors r k).1 ++ t) ∧
    (∃ t, (calibrate r k).1 = (handle_errors r k).1 ++ t) := by
  refine ⟨fun h => ?_, fun h => ?_, fun h => ?_, fun force fuel => ⟨_, rfl⟩,
    fun fuel => ⟨_, rfl⟩, fun tp fuel => ⟨_, rfl⟩, ⟨_, rfl⟩, ⟨_, rfl⟩, ⟨_, rfl⟩, ⟨_, rfl⟩⟩
  · simp [handle_errors, h, STATUS_ERROR, acknowledge]
  · simp [handle_errors, h, STATUS_OOS, STATUS_ERROR, acknowledge, timeoutReg]
  · simp [handle_errors, h, STATUS_READY, STATUS_ERROR, STATUS_OOS, acknowledge, timeoutReg]

/-- C5 (witness): the three recovery behaviours at devices reporting raw
status words 0x0000 (`Error`), 0x0100 (`Out of specification`) and 0x0300
(`Ready`), and the prefix property for `grip` on the `Ready` device. -/
theorem handle_errors_policy_witness :
    handle_errors (fun _ => 0) 0 =
      ([Event.readInput 0x0001 [0], Event.writeReg 0x0801 0x0100, Event.sleep 100,
        Event.writeReg 0x0801 0x8100, Event.sleep 100], 1) ∧
    handle_errors (fun _ => 0x0100) 0 =
      ([Event.readInput 0x0001 [0x0100], Event.writeReg 0x1120 1, Event.sleep 100,
        Event.writeReg 0x1120 0, Event.sleep 100, Event.writeReg 0x0801 0x0100,
        Event.sleep 100, Event.writeReg 0x0801 0x8100, Event.sleep 100], 1) ∧
    handle_errors (fun _ => 0x0300) 0 = ([Event.readInput 0x0001 [0x0300]], 1) ∧
    (∃ t, (grip (fun _ => 0x0300) 0 4 1).1 = (handle_errors (fun _ => 0x0300) 0).1 ++ t) :=
  ⟨(handle_errors_policy (fun _ => 0) 0).1 (by decide),
   (handle_errors_policy (fun _ => 0x0100) 0).2.1 (by decide),
   (handle_errors_policy (fun _ => 0x0300) 0).2.2.1 (by decide),
   (handle_errors_policy (fun _ => 0x0300) 0).2.2.2.1 4 1⟩

/-- C6 (counterexample): the claim says an out-of-range force fails with
the range error before any register I/O; in fact `grip(5)` on a `Ready`
device performs a status read (the `handle_errors` pre-check) before
raising the range error, so its trace is not empty. -/
theorem range_check_counterexample :
    grip readyOracle 0 5 0 = ([Event.readInput 0x0001 [0x0300]], 1, Outcome.err Err.rangeError) ∧
    (grip readyOracle 0 5 0).1 ≠ [] := by
  refine ⟨by decide, by decide⟩

/-- C6 (amended): for an out-of-range force or target position the
operation fails with the range error before any command write: the trace
up to the error is exactly the pre-command error-handling trace (one status
read plus any recovery writes it triggers), with no command frame
written. -/
theorem range_error_after_precheck (r : Oracle) (k fuel : ℕ) (force tp : ℤ)
    (hf : ¬(1 ≤ force ∧ force ≤ 4)) (hp : ¬(0 ≤ tp ∧ tp ≤ 100)) :
    grip r k force fuel =
      ((handle_errors r k).1, (handle_errors r k).2, Outcome.err Err.rangeError) ∧
    set_position r k tp fuel =
      ((handle_errors r k).1, (handle_errors r k).2, Outcome.err Err.rangeError) := by
  constructor
  · simp [grip, gripBody, hf]
  · simp [set_position, set_positionBody, hp]

/-- C6 (amended, witness): `grip(5)` and `set_position(101)` on a `Ready`
device raise the range error right after the single pre-check status
read. -/
theorem range_error_after_precheck_witness :
    grip readyOracle 0 5 0 =
      ((handle_errors readyOracle 0).1, (handle_errors readyOracle 0).2,
       Outcome.err Err.rangeError) ∧
    set_position readyOracle 0 101 0 =
      ((handle_errors readyOracle 0).1, (handle_errors readyOracle 0).2,
       Outcome.err Err.rangeError) :=
  range_error_after_precheck readyOracle 0 0 5 101 (by omega) (by omega)

/-- C7 (counterexample): the claim says a `MaintenanceRequired` status
makes every command operation fail with a blocking error before the
command is issued; in fact `grip(4)` on a device reporting raw status
0x0200 (maintenance) proceeds normally: it issues the grip command frames
and returns ok. -/
theorem maintenance_counterexample :
    statusField (maintOracle 0) = STATUS_MAINTENANCE ∧
    grip maintOracle 0 4 1 =
      ([Event.readInput 0x0001 [0x0200],
        Event.writeRegs 0x0801 [0x0400, 0, 0, 0], Event.sleep 50,
        Event.writeRegs 0x0801 [0x8400, 0, 0, 0],
        Event.readInput 0x0001 [0x8000], Event.sleep 1000,
        Event.readInput 0x0001 [0x4000]], 3, Outcome.ok) := by
  refine ⟨by decide, by decide⟩

/-- C7 (amended): when the freshly read operating status is
`MaintenanceRequired` (value 2), the recovery policy performs no automatic
recovery action (the check's trace is the bare status read) and no error is
raised: the command operation proceeds to issue its command frames
normally. -/
theorem maintenance_no_recovery (r : Oracle) (k : ℕ)
    (h : statusField (r k) = STATUS_MAINTENANCE) :
    handle_errors r k = ([Event.readInput 0x0001 [r k]], k + 1) ∧
    (∀ fuel, ∃ t, (grip r k 4 fuel).1 =
       Event.readInput 0x0001 [r k] ::
         (Event.writeRegs 0x0801 [0x0400, 0, 0, 0] :: Event.sleep 50 ::
          Event.writeRegs 0x0801 [0x8400, 0, 0, 0] :: t)) ∧
    (∀ fuel e, (grip r k 4 fuel).2.2 ≠ Outcome.err e) := by
  have hhe : handle_errors r k = ([Event.readInput 0x0001 [r k]], k + 1) := by
    simp [handle_errors, h, STATUS_MAINTENANCE, STATUS_ERROR, STATUS_OOS]
  refine ⟨hhe, fun fuel => ?_, fun fuel e => ?_⟩
  · exact ⟨(wait_process_command r (k + 1)).1 ++ [Event.sleep 1000] ++
        (successLoop r (wait_process_command r (k + 1)).2 fuel).1,
      by simp [grip, gripBody, hhe]⟩
  · have hout : (grip r k 4 fuel).2.2 =
        (if (successLoop r (wait_process_command r (handle_errors r k).2).2 fuel).2.2
          then Outcome.ok else Outcome.diverge) := by
      simp [grip, gripBody]
    rw [hout]
    cases (successLoop r (wait_process_command r (handle_errors r k).2).2 fuel).2.2 <;> simp

/-- C7 (amended, witness): the maintenance-status device gets no recovery
action and `grip(4)` proceeds without error. -/
theorem maintenance_no_recovery_witness :
    handle_errors maintOracle 0 = ([Event.readInput 0x0001 [0x0200]], 1) ∧
    (∀ fuel, ∃ t, (grip maintOracle 0 4 fuel).1 =
       Event.readInput 0x0001 [0x0200] ::
         (Event.writeRegs 0x0801 [0x0400, 0, 0, 0] :: Event.sleep 50 ::
          Event.writeRegs 0x0801 [0x8400, 0, 0, 0] :: t)) ∧
    (∀ fuel e, (grip maintOracle 0 4 fuel).2.2 ≠ Outcome.err e) :=
  maintenance_no_recovery maintOracle 0 (by decide)

/-- C1: for a force level in [1,4], `grip` writes the arm payload
`[0x0400, (4-force)*0x0100, 0, 0]` to address 0x0801 and then the execute
payload `[0x8400, (4-force)*0x0100, 0, 0]`, the encoded force word being
exactly 0x0300, 0x0200, 0x0100, 0x0000 for levels 1..4 (so `grip(2)`
writes `[0x0400,0x0200,0,0]` then `[0x8400,0x0200,0,0]`), and whenever it
returns normally the last I/O it performed is a status-register read whose
success bit (character `[1]`, MSB-first) reads 1. -/
theorem grip_command_sequence (r : Oracle) (k fuel : ℕ) (force : ℤ)
    (h1 : 1 ≤ force) (h2 : force ≤ 4) :
    (∃ t, (grip r k force fuel).1 =
       (handle_errors r k).1 ++
         ([Event.writeRegs 0x0801 [0x0400, ((4 - force) * 0x0100).toNat, 0, 0],
           Event.sleep 50,
           Event.writeRegs 0x0801 [0x8400, ((4 - force) * 0x0100).toNat, 0, 0]] ++ t)) ∧
    ((grip r k force fuel).2.2 = Outcome.ok →
       ∃ t v, (grip r k force fuel).1 = t ++ [Event.readInput 0x0001 [v]] ∧
         successBit v = 1) ∧
    (force = 1 → ((4 - force) * 0x0100).toNat = 0x0300) ∧
    (force = 2 → ((4 - force) * 0x0100).toNat = 0x0200) ∧
    (force = 3 → ((4 - force) * 0x0100).toNat = 0x0100) ∧
    (force = 4 → ((4 - force) * 0x0100).toNat = 0) := by
  have hcond : 1 ≤ force ∧ force ≤ 4 := ⟨h1, h2⟩
  refine ⟨?_, ?_, fun h => by subst h; decide, fun h => by subst h; decide,
    fun h => by subst h; decide, fun h => by subst h; decide⟩
  · exact ⟨(wait_process_command r (handle_errors r k).2).1 ++ [Event.sleep 1000] ++
        (successLoop r (wait_process_command r (handle_errors r k).2).2 fuel).1,
      by simp [grip, gripBody, hcond]⟩
  · intro hok
    have hfound :
        (successLoop r (wait_process_command r (handle_errors r k).2).2 fuel).2.2 = true := by
      by_contra hb
      simp [grip, gripBody, hcond, hb] at hok
    obtain ⟨t, v, ht, hv⟩ :=
      successLoop_found r fuel (wait_process_command r (handle_errors r k).2).2 hfound
    refine ⟨(handle_errors r k).1 ++
        [Event.writeRegs 0x0801 [0x0400, ((4 - force) * 0x0100).toNat, 0, 0],
         Event.sleep 50,
         Event.writeRegs 0x0801 [0x8400, ((4 - force) * 0x0100).toNat, 0, 0]] ++
        (wait_process_command r (handle_errors r k).2).1 ++ [Event.sleep 1000] ++ t,
      v, ?_, hv⟩
    simp [grip, gripBody, hcond, ht]

/-- C1 (witness): `grip(2)` on a `Ready` device that then accepts the
command and reports success. -/
theorem grip_command_sequence_witness :
    (1 : ℤ) ≤ 2 ∧ (2 : ℤ) ≤ 4 ∧
    ((∃ t, (grip readyOracle 0 2 1).1 =
       (handle_errors readyOracle 0).1 ++
         ([Event.writeRegs 0x0801 [0x0400, ((4 - 2) * 0x0100 : ℤ).toNat, 0, 0],
           Event.sleep 50,
           Event.writeRegs 0x0801 [0x8400, ((4 - 2) * 0x0100 : ℤ).toNat, 0, 0]] ++ t)) ∧
    ((grip readyOracle 0 2 1).2.2 = Outcome.ok →
       ∃ t v, (grip readyOracle 0 2 1).1 = t ++ [Event.readInput 0x0001 [v]] ∧
         successBit v = 1) ∧
    ((2 : ℤ) = 1 → ((4 - 2) * 0x0100 : ℤ).toNat = 0x0300) ∧
    ((2 : ℤ) = 2 → ((4 - 2) * 0x0100 : ℤ).toNat = 0x0200) ∧
    ((2 : ℤ) = 3 → ((4 - 2) * 0x0100 : ℤ).toNat = 0x0100) ∧
    ((2 : ℤ) = 4 → ((4 - 2) * 0x0100 : ℤ).toNat = 0)) :=
  ⟨by decide, by decide,
   grip_command_sequence readyOracle 0 1 2 (by decide) (by decide)⟩

/-- C4: for a target in [0,100], `set_position` delegates to `grip()`
(force 4, hence the same command-word sequence as `grip(4)`) when the
target is below 3, delegates to `release()` when it is above 97, and
otherwise writes the move command pair 0x0500 / 0x8500 carrying the
big-endian IEEE-754 split of the encoded position and waits only for
acceptance, never for the success bit (its trace ends with the acceptance
polling and the outcome is ok regardless of the success flag). -/
theorem set_position_spec (r : Oracle) (k fuel : ℕ) (tp : ℤ)
    (h0 : 0 ≤ tp) (h100 : tp ≤ 100) :
    (tp < 3 → set_position r k tp fuel =
       ((handle_errors r k).1 ++ (grip r (handle_errors r k).2 4 fuel).1,
        (grip r (handle_errors r k).2 4 fuel).2)) ∧
    (97 < tp → set_position r k tp fuel =
       ((handle_errors r k).1 ++ (release r (handle_errors r k).2 fuel).1,
        (release r (handle_errors r k).2 fuel).2)) ∧
    (3 ≤ tp → tp ≤ 97 → set_position r k tp fuel =
       ((handle_errors r k).1 ++
          ([Event.writeRegs 0x0801 [0x0500, 0, (position_words tp).1, (position_words tp).2],
            Event.sleep 50,
            Event.writeRegs 0x0801 [0x8500, 0, (position_words tp).1, (position_words tp).2]] ++
           (wait_process_command r (handle_errors r k).2).1),
        (wait_process_command r (handle_errors r k).2).2, Outcome.ok)) := by
  refine ⟨fun h3 => ?_, fun h97 => ?_, fun h3 h97 => ?_⟩
  · simp [set_position, set_positionBody, h0, h100, h3]
  · have ha : ¬ tp < 3 := by omega
    simp [set_position, set_positionBody, h0, h100, h97, ha]
  · have ha : ¬ tp < 3 := by omega
    have hb : ¬ 97 < tp := by omega
    simp [set_position, set_positionBody, h0, h100, ha, hb]

/-- C4 (witness): targets 1 (grip delegation), 98 (release delegation) and
50 (move command) on the `Ready` device. -/
theorem set_position_spec_witness :
    set_position readyOracle 0 1 1 =
      ((handle_errors readyOracle 0).1 ++
         (grip readyOracle (handle_errors readyOracle 0).2 4 1).1,
       (grip readyOracle (handle_errors readyOracle 0).2 4 1).2) ∧
    set_position readyOracle 0 98 1 =
      ((handle_errors readyOracle 0).1 ++
         (release readyOracle (handle_errors readyOracle 0).2 1).1,
       (release readyOracle (handle_errors readyOracle 0).2 1).2) ∧
    set_position readyOracle 0 50 1 =
      ((handle_errors readyOracle 0).1 ++
         ([Event.writeRegs 0x0801
             [0x0500, 0, (position_words 50).1, (position_words 50).2],
           Event.sleep 50,
           Event.writeRegs 0x0801
             [0x8500, 0, (position_words 50).1, (position_words 50).2]] ++
          (wait_process_command readyOracle (handle_errors readyOracle 0).2).1),
       (wait_process_command readyOracle (handle_errors readyOracle 0).2).2, Outcome.ok) :=
  ⟨(set_position_spec readyOracle 0 1 1 (by omega) (by omega)).1 (by omega),
   (set_position_spec readyOracle 0 1 98 (by omega) (by omega)).2.1 (by omega),
   (set_position_spec readyOracle 0 1 50 (by omega) (by omega)).2.2 (by omega) (by omega)⟩

set_option maxRecDepth 100000 in
set_option maxHeartbeats 4000000 in
/-- C8: for every integer percentage in [0,100], decoding the position
encoded from it (encode: mm = (100-percentage)/100 * POSITION_MAX packed
as big-endian IEEE-754 single split into two 16-bit words; decode:
reconstruct the float and truncate ((POSITION_MAX - mm)/POSITION_MAX)*100
toward zero) recovers the original percentage within ±1. -/
theorem position_roundtrip (p : ℕ) (h : p ≤ 100) :
    ∃ d, get_position (position_words (p : ℤ)).1 (position_words (p : ℤ)).2 = some d ∧
      (d - (p : ℤ)).natAbs ≤ 1 := by
  have hb : ∀ q : ℕ, q < 101 → roundTripOK q = true := by decide
  have hp := hb p (by omega)
  unfold roundTripOK at hp
  rcases hcase : get_position (position_words (p : ℤ)).1 (position_words (p : ℤ)).2 with _ | d
  · rw [hcase] at hp
    simp at hp
  · rw [hcase] at hp
    simp only [decide_eq_true_eq] at hp
    exact ⟨d, rfl, hp⟩

/-- C8 (witness): the round trip at percentage 50. -/
theorem position_roundtrip_witness :
    (50 : ℕ) ≤ 100 ∧
    ∃ d, get_position (position_words ((50 : ℕ) : ℤ)).1
        (position_words ((50 : ℕ) : ℤ)).2 = some d ∧
      (d - ((50 : ℕ) : ℤ)).natAbs ≤ 1 :=
  ⟨by decide, position_roundtrip 50 (by decide)⟩

end Gripper
